import Mathlib

/-!
# Verification of the net-worth-tracker mock-data core

A shallow embedding of `apps/api/src/lib/mock-data.ts` (the seeded random
generator, the historical-series simulator `generateRealisticHistory`, and the
aggregation layer `calculateCurrentTotals` / `calculateAssetBreakdown` /
`calculateLiabilityBreakdown`), together with theorems settling the spec's
claims about them.

Modelling conventions:

* JavaScript numbers are modelled as exact rationals (`ℚ`).  All the numeric
  literals of the source (`0.08`, `0.9995`, `1000`, ...) are exact decimal
  rationals; binary float64 rounding of arithmetic is abstracted away.
* `Date` values are modelled as their epoch-millisecond value (`ℤ`);
  `getFullYear` / `getMonth` / `getDate` are modelled by the Gregorian civil
  calendar in UTC (`civilFromDays`, Howard Hinnant's algorithm).
* The transcendental kernels `Math.sqrt`, `Math.log`, `Math.cos`, `Math.sin`
  and `Math.pow` have no exact rational counterpart; they are abstracted as a
  parameter `ops : MathOps`.  Structural theorems are proved for every `ops`;
  closed evaluations instantiate `ops` with a concrete record (`zeroOps`).
  `Math.PI` is kept as the exact rational value of the float64 constant.
* The module-level constants the source closes over (`mockAccounts`,
  `mockAccountBalances`, `currentTotals`) become explicit parameters of the
  embedded functions; the source's closures are recovered by instantiating
  them with the embedded fixtures below.
* `Math.round` is modelled by Mathlib's `round : ℚ → ℤ` (both round halves
  towards `+∞`).
-/

/-! ## Calendar: epoch milliseconds to Gregorian civil date (UTC)

`civilFromDays` converts a count of days since 1970-01-01 to a `(year, month,
day)` triple, `month` being 1-based.  This models what `Date.prototype.
getFullYear` / `getMonth` / `getDate` return for a UTC-configured runtime.
-/

def civilFromDays (z0 : ℤ) : ℤ × ℤ × ℤ :=
  let z := z0 + 719468
  let era := Int.fdiv z 146097
  let doe := z - era * 146097
  let yoe := (doe - doe / 1460 + doe / 36524 - doe / 146096) / 365
  let y := yoe + era * 400
  let doy := doe - (365 * yoe + yoe / 4 - yoe / 100)
  let mp := (5 * doy + 2) / 153
  let d := doy - (153 * mp + 2) / 5 + 1
  let m := mp + (if mp < 10 then 3 else -9)
  (y + (if m ≤ 2 then 1 else 0), m, d)

/-- Milliseconds per day (`24 * 60 * 60 * 1000`). -/
def msPerDay : ℤ := 24 * 60 * 60 * 1000

/-- `date.getFullYear()` for an epoch-ms value, in UTC. -/
def jsGetFullYear (ms : ℤ) : ℤ := (civilFromDays (Int.fdiv ms msPerDay)).1

/-- `date.getMonth()` (0-based month) for an epoch-ms value, in UTC. -/
def jsGetMonth (ms : ℤ) : ℤ := (civilFromDays (Int.fdiv ms msPerDay)).2.1 - 1

/-- `date.getDate()` (day of month) for an epoch-ms value, in UTC. -/
def jsGetDate (ms : ℤ) : ℤ := (civilFromDays (Int.fdiv ms msPerDay)).2.2

/-! ## Abstract transcendental kernels -/

/-- The transcendental `Math.*` kernels used by the source, abstracted as
rational-valued functions.  The source's algorithms are parametric in these;
theorems quantify over them. -/
structure MathOps where
  sqrt : ℚ → ℚ
  log : ℚ → ℚ
  cos : ℚ → ℚ
  sin : ℚ → ℚ
  pow : ℚ → ℚ → ℚ

/-- The exact rational value of the float64 constant `Math.PI`. -/
def piF64 : ℚ := 884279719003555 / 281474976710656

/-- A concrete instantiation of the abstract kernels, used for closed
evaluations (counterexamples and witnesses): all transcendental calls return
`0` and `pow` returns `1`. -/
def zeroOps : MathOps :=
  { sqrt := fun _ => 0
    log := fun _ => 0
    cos := fun _ => 0
    sin := fun _ => 0
    pow := fun _ _ => 1 }

/-! ## SeededRandom (`class SeededRandom`, mock-data.ts lines 34-70)

The mutable object is modelled by explicit state passing: each method returns
its value together with the successor state.
-/

/-- State of the `SeededRandom` LCG: the current seed and the cached
Box-Muller spare. -/
structure SeededRandom where
  seed : ℕ
  spareNormal : Option ℚ
deriving DecidableEq

/-- One step of the linear congruential recurrence
`seed = (seed * 1664525 + 1013904223) % 2 ** 32`. -/
def lcgStep (s : ℕ) : ℕ := (s * 1664525 + 1013904223) % 2 ^ 32

/-- `next()`: advance the LCG and return `seed / 2 ** 32 ∈ [0, 1)`. -/
def SeededRandom.next (r : SeededRandom) : ℚ × SeededRandom :=
  let s := lcgStep r.seed
  ((s : ℚ) / 2 ^ 32, { r with seed := s })

/-- `range(min, max)`: `min + next() * (max - min)`. -/
def SeededRandom.range (r : SeededRandom) (lo hi : ℚ) : ℚ × SeededRandom :=
  let (u, r1) := r.next
  (lo + u * (hi - lo), r1)

/-- `normal(mean, stdDev)`: Box-Muller transform with paired caching of the
unscaled sine branch in `spareNormal`. -/
def SeededRandom.normal (ops : MathOps) (r : SeededRandom) (mean stdDev : ℚ) :
    ℚ × SeededRandom :=
  match r.spareNormal with
  | some spare => (spare * stdDev + mean, { r with spareNormal := none })
  | none =>
    let (u1, r1) := r.next
    let (u2, r2) := r1.next
    let z0 := ops.sqrt (-2 * ops.log u1) * ops.cos (2 * piF64 * u2)
    let z1 := ops.sqrt (-2 * ops.log u1) * ops.sin (2 * piF64 * u2)
    (z0 * stdDev + mean, { r2 with spareNormal := some z1 })

/-- `createSeededRandom(date)`: seed derived as
`year*10000 + (month+1)*100 + day` from the date's calendar components. -/
def createSeededRandom (dateMs : ℤ) : SeededRandom :=
  let seed := jsGetFullYear dateMs * 10000 + (jsGetMonth dateMs + 1) * 100 +
    jsGetDate dateMs
  ⟨seed.toNat, none⟩

/-! ## Data model (`@net-worth-tracker/shared-types`)

Only the fields the mock-data core reads are modelled.
-/

/-- `ACCOUNT_TYPES`: depository, investment, loan, credit, manual_asset,
manual_liability, solana_wallet. -/
inductive AccountType
  | depository
  | investment
  | loan
  | credit
  | manual_asset
  | manual_liability
  | solana_wallet
deriving DecidableEq

/-- `ACCOUNT_CATEGORIES`: cash, investment, property, vehicle,
precious_metal, digital_asset, other. -/
inductive AccountCategory
  | cash
  | investment
  | property
  | vehicle
  | precious_metal
  | digital_asset
  | other
deriving DecidableEq

/-- An `AccountBalance` record (the fields the aggregation reads). -/
structure AccountBalance where
  id : String
  accountId : String
  balance : ℚ
  isCurrent : Bool
deriving DecidableEq

/-- An `Account` record (the fields the aggregation reads). -/
structure Account where
  id : String
  type : AccountType
  subtype : String
  category : AccountCategory
  currentBalance : Option AccountBalance
deriving DecidableEq

/-- Result record of `calculateCurrentTotals`. -/
structure CurrentTotals where
  totalAssets : ℚ
  totalLiabilities : ℚ
  currentNetWorth : ℚ
deriving DecidableEq

/-! ## Aggregation layer (mock-data.ts lines 866-1024)

The source's functions close over the module-level fixtures
`mockAccounts` / `mockAccountBalances`; here those closures become explicit
list parameters.
-/

/-- The asset account types of `calculateCurrentTotals` and
`calculateAssetBreakdown`: `[DEPOSITORY, INVESTMENT, MANUAL_ASSET]`. -/
def assetTypeList : List AccountType := [.depository, .investment, .manual_asset]

/-- The liability account types of `calculateCurrentTotals`:
`[CREDIT, LOAN]`. -/
def liabilityTypeList : List AccountType := [.credit, .loan]

/-- Loop body of `calculateCurrentTotals`: fold one current balance into the
`(totalAssets, totalLiabilities)` accumulator, joining it to its account by
`accounts.find`.  (`balance.balance || 0` collapses to `balance.balance`
over `ℚ`, where the only falsy number is `0` itself.) -/
def totalsStep (accounts : List Account) (t : ℚ × ℚ) (b : AccountBalance) :
    ℚ × ℚ :=
  match accounts.find? (fun a => a.id == b.accountId) with
  | none => t
  | some account =>
    let balanceValue := b.balance
    if assetTypeList.contains account.type then (t.1 + balanceValue, t.2)
    else if liabilityTypeList.contains account.type then
      (t.1, t.2 + balanceValue)
    else t

/-- `calculateCurrentTotals`: filter balances to `isCurrent`, join each to
its account, sum asset-typed ones into `totalAssets` and liability-typed
ones into `totalLiabilities`; net worth is their difference. -/
def calculateCurrentTotals (accounts : List Account)
    (balances : List AccountBalance) : CurrentTotals :=
  let currentBalances := balances.filter (·.isCurrent)
  let t := currentBalances.foldl (totalsStep accounts) (0, 0)
  { totalAssets := t.1, totalLiabilities := t.2, currentNetWorth := t.1 - t.2 }

/-- `acc.currentBalance?.balance || 0`. -/
def accountCurrentBalanceValue (a : Account) : ℚ :=
  match a.currentBalance with
  | some b => b.balance
  | none => 0

/-- `reduce((sum, acc) => sum + (acc.currentBalance?.balance || 0), 0)`. -/
def sumBalances (l : List Account) : ℚ := (l.map accountCurrentBalanceValue).sum

/-- Result record of `calculateAssetBreakdown`. -/
structure AssetBreakdown where
  cash : ℚ
  investments : ℚ
  property : ℚ
  vehicles : ℚ
  preciousMetals : ℚ
  digitalAssets : ℚ
  other : ℚ
deriving DecidableEq

/-- `calculateAssetBreakdown`: per-category sums of the current balances of
asset-typed accounts. -/
def calculateAssetBreakdown (accounts : List Account) : AssetBreakdown :=
  let assetAccounts := accounts.filter (fun a => assetTypeList.contains a.type)
  { cash := sumBalances (assetAccounts.filter (fun a => a.category == .cash))
    investments :=
      sumBalances (assetAccounts.filter (fun a => a.category == .investment))
    property :=
      sumBalances (assetAccounts.filter (fun a => a.category == .property))
    vehicles :=
      sumBalances (assetAccounts.filter (fun a => a.category == .vehicle))
    preciousMetals :=
      sumBalances
        (assetAccounts.filter (fun a => a.category == .precious_metal))
    digitalAssets :=
      sumBalances
        (assetAccounts.filter (fun a => a.category == .digital_asset))
    other :=
      sumBalances (assetAccounts.filter (fun a => a.category == .other)) }

/-- Result record of `calculateLiabilityBreakdown`. -/
structure LiabilityBreakdown where
  creditCards : ℚ
  mortgages : ℚ
  loans : ℚ
  other : ℚ
deriving DecidableEq

/-- Account types included by `calculateLiabilityBreakdown`:
`[CREDIT, LOAN, MANUAL_LIABILITY]`. -/
def liabilityBreakdownTypeList : List AccountType :=
  [.credit, .loan, .manual_liability]

/-- `calculateLiabilityBreakdown`: credit accounts, loans split on the
`"mortgage"` subtype, and manual liabilities. -/
def calculateLiabilityBreakdown (accounts : List Account) :
    LiabilityBreakdown :=
  let liabilityAccounts :=
    accounts.filter (fun a => liabilityBreakdownTypeList.contains a.type)
  { creditCards :=
      sumBalances (liabilityAccounts.filter (fun a => a.type == .credit))
    mortgages :=
      sumBalances (liabilityAccounts.filter
        (fun a => a.type == .loan && a.subtype == "mortgage"))
    loans :=
      sumBalances (liabilityAccounts.filter
        (fun a => a.type == .loan && a.subtype != "mortgage"))
    other :=
      sumBalances
        (liabilityAccounts.filter (fun a => a.type == .manual_liability)) }

/-! ## Fixtures (`mockAccountBalances`, `mockAccounts`, `currentTotals`)

The 18 current balance records (`bal-1` ... `bal-18`, `isCurrent: true`)
followed by the 18 one-month-ago records (`isCurrent: false`), and the 18
accounts.  Each account's `currentBalance` is the corresponding entry of
`mockAccountBalances` (the source indexes it as `mockAccountBalances[k]`, or
looks it up by id for the wallet accounts — same record either way).
-/

/-- The `mockAccountBalances` fixture. -/
def mockAccountBalances : List AccountBalance :=
  [⟨"bal-1", "acc-1", 12500, true⟩,
   ⟨"bal-2", "acc-2", 25000, true⟩,
   ⟨"bal-3", "acc-3", 85000, true⟩,
   ⟨"bal-4", "acc-4", 42500, true⟩,
   ⟨"bal-5", "acc-5", 2500, true⟩,
   ⟨"bal-6", "acc-6", 15000, true⟩,
   ⟨"bal-7", "acc-7", 350000, true⟩,
   ⟨"bal-8", "acc-8", 28000, true⟩,
   ⟨"bal-9", "acc-9", 25000, true⟩,
   ⟨"bal-10", "acc-10", 15000, true⟩,
   ⟨"bal-11", "acc-11", 11000, true⟩,
   ⟨"bal-12", "acc-12", 16000, true⟩,
   ⟨"bal-13", "acc-13", 20000, true⟩,
   ⟨"bal-14", "acc-14", 8000, true⟩,
   ⟨"bal-15", "acc-15", 20000, true⟩,
   ⟨"bal-16", "acc-16", 12000, true⟩,
   ⟨"bal-17", "acc-17", 8500, true⟩,
   ⟨"bal-18", "acc-18", 15000, true⟩,
   ⟨"bal-1-monthly", "acc-1", 12000, false⟩,
   ⟨"bal-2-monthly", "acc-2", 24500, false⟩,
   ⟨"bal-3-monthly", "acc-3", 82000, false⟩,
   ⟨"bal-4-monthly", "acc-4", 41000, false⟩,
   ⟨"bal-5-monthly", "acc-5", 3000, false⟩,
   ⟨"bal-6-monthly", "acc-6", 15500, false⟩,
   ⟨"bal-7-monthly", "acc-7", 348000, false⟩,
   ⟨"bal-8-monthly", "acc-8", 28500, false⟩,
   ⟨"bal-9-monthly", "acc-9", 22000, false⟩,
   ⟨"bal-10-monthly", "acc-10", 13500, false⟩,
   ⟨"bal-11-monthly", "acc-11", 8000, false⟩,
   ⟨"bal-12-monthly", "acc-12", 15800, false⟩,
   ⟨"bal-13-monthly", "acc-13", 19500, false⟩,
   ⟨"bal-14-monthly", "acc-14", 7800, false⟩,
   ⟨"bal-15-monthly", "acc-15", 19600, false⟩,
   ⟨"bal-16-monthly", "acc-16", 10500, false⟩,
   ⟨"bal-17-monthly", "acc-17", 7200, false⟩,
   ⟨"bal-18-monthly", "acc-18", 18000, false⟩]

/-- The `mockAccounts` fixture. -/
def mockAccounts : List Account :=
  [⟨"acc-1", .depository, "checking", .cash, mockAccountBalances.get? 0⟩,
   ⟨"acc-2", .depository, "savings", .cash, mockAccountBalances.get? 1⟩,
   ⟨"acc-3", .investment, "brokerage", .investment, mockAccountBalances.get? 2⟩,
   ⟨"acc-4", .investment, "ira", .investment, mockAccountBalances.get? 3⟩,
   ⟨"acc-5", .credit, "credit_card", .other, mockAccountBalances.get? 4⟩,
   ⟨"acc-6", .loan, "auto", .other, mockAccountBalances.get? 5⟩,
   ⟨"acc-7", .manual_asset, "real_estate", .property,
     mockAccountBalances.get? 6⟩,
   ⟨"acc-8", .manual_asset, "vehicle", .vehicle, mockAccountBalances.get? 7⟩,
   ⟨"acc-9", .manual_asset, "bitcoin", .digital_asset,
     mockAccountBalances.get? 8⟩,
   ⟨"acc-10", .manual_asset, "ethereum", .digital_asset,
     mockAccountBalances.get? 9⟩,
   ⟨"acc-11", .manual_asset, "nft", .digital_asset,
     mockAccountBalances.get? 10⟩,
   ⟨"acc-12", .manual_asset, "rwa", .digital_asset,
     mockAccountBalances.get? 11⟩,
   ⟨"acc-13", .manual_asset, "gold", .precious_metal,
     mockAccountBalances.get? 12⟩,
   ⟨"acc-14", .manual_asset, "silver", .precious_metal,
     mockAccountBalances.get? 13⟩,
   ⟨"acc-15", .manual_asset, "etf", .precious_metal,
     mockAccountBalances.get? 14⟩,
   ⟨"acc-16", .solana_wallet, "solana", .digital_asset,
     mockAccountBalances.get? 15⟩,
   ⟨"acc-17", .solana_wallet, "spl_token", .digital_asset,
     mockAccountBalances.get? 16⟩,
   ⟨"acc-18", .solana_wallet, "solana_nft", .digital_asset,
     mockAccountBalances.get? 17⟩]

/-- `const currentTotals = calculateCurrentTotals()` (module-level constant
computed from the fixtures). -/
def currentTotals : CurrentTotals :=
  calculateCurrentTotals mockAccounts mockAccountBalances

/-! ## Historical series simulator (`generateRealisticHistory`, lines 1029-1123)

The source's `for (let i = 0; i <= numPoints; i++)` loop with the mutable
`currentLiabilities` carried across iterations is modelled by the
fuel-counted loop `genLoop` (`fuel = numPoints + 1 - i`); `currentNetWorth`
and `currentAssets` are recomputed from scratch every iteration and so are
locals of `generateStep`.

One corner is deliberately normalised: when `numPoints = 0`, JavaScript's
`i / numPoints` is `NaN` where `ℚ` division gives `0`.  The difference is
unobservable — in that case the only iteration is the forced final one,
which overwrites every value the perturbation model produced.
-/

/-- Sampling granularity. -/
inductive Granularity
  | daily
  | weekly
  | monthly
  | quarterly
deriving DecidableEq

/-- The fixed millisecond interval of each granularity (1/7/30/90 days). -/
def intervalMsOf : Granularity → ℤ
  | .daily => msPerDay
  | .weekly => 7 * msPerDay
  | .monthly => 30 * msPerDay
  | .quarterly => 90 * msPerDay

/-- One sample of the generated series.  `Math.round` produces integers, so
the three amounts are `ℤ`; `date` is epoch ms. -/
structure HistoryPoint where
  date : ℤ
  netWorth : ℤ
  totalAssets : ℤ
  totalLiabilities : ℤ
deriving DecidableEq

/-- The arguments of one `generateRealisticHistory` call: its four parameters
plus the two ambient bindings the source closes over (the module-level
`currentTotals` and the `Math.*` kernels). -/
structure GenArgs where
  totals : CurrentTotals
  ops : MathOps
  startDate : ℤ
  endDate : ℤ
  granularity : Granularity
  targetEndNetWorth : Option ℚ

/-- `const totalDuration = endDate.getTime() - startDate.getTime()`. -/
def GenArgs.totalDuration (g : GenArgs) : ℤ := g.endDate - g.startDate

/-- `const numPoints = Math.floor(totalDuration / intervalMs)` (floor of the
exact quotient). -/
def GenArgs.numPoints (g : GenArgs) : ℤ :=
  Int.fdiv g.totalDuration (intervalMsOf g.granularity)

/-- `const targetNetWorth = targetEndNetWorth || currentTotals.currentNetWorth`
(JavaScript `||`: an absent argument and the falsy number `0` both fall back
to the ambient net worth). -/
def GenArgs.targetNetWorth (g : GenArgs) : ℚ :=
  match g.targetEndNetWorth with
  | none => g.totals.currentNetWorth
  | some v => if v = 0 then g.totals.currentNetWorth else v

/-- `const targetAssets = targetNetWorth + currentTotals.totalLiabilities`. -/
def GenArgs.targetAssets (g : GenArgs) : ℚ :=
  g.targetNetWorth + g.totals.totalLiabilities

/-- `const targetLiabilities = currentTotals.totalLiabilities`. -/
def GenArgs.targetLiabilities (g : GenArgs) : ℚ := g.totals.totalLiabilities

/-- `const totalGrowthRate = 0.08`. -/
def totalGrowthRate : ℚ := 0.08

/-- `const periodYears = totalDuration / (365 * msPerDay)`. -/
def GenArgs.periodYears (g : GenArgs) : ℚ :=
  (g.totalDuration : ℚ) / (365 * (msPerDay : ℚ))

/-- `const startingNetWorth = targetNetWorth / Math.pow(1 + totalGrowthRate,
periodYears)`. -/
def GenArgs.startingNetWorth (g : GenArgs) : ℚ :=
  g.targetNetWorth / g.ops.pow (1 + totalGrowthRate) g.periodYears

/-- `const volatility = 0.12`. -/
def volatility : ℚ := 0.12

/-- `const volatilityPerInterval = volatility * Math.sqrt(intervalMs /
(365 * msPerDay))`. -/
def GenArgs.volatilityPerInterval (g : GenArgs) : ℚ :=
  volatility * g.ops.sqrt ((intervalMsOf g.granularity : ℚ) /
    (365 * (msPerDay : ℚ)))

/-- The forced final sample (`i === numPoints` branch): exact end date and
the rounded target values. -/
def GenArgs.forcedPoint (g : GenArgs) : HistoryPoint :=
  { date := g.endDate
    netWorth := round g.targetNetWorth
    totalAssets := round g.targetAssets
    totalLiabilities := round g.targetLiabilities }

/-- The body of one loop iteration: maps the sample index `i` and the
carried `currentLiabilities` to the pushed point and the updated
`currentLiabilities`. -/
def generateStep (g : GenArgs) (i : ℕ) (currentLiabilities : ℚ) :
    HistoryPoint × ℚ :=
  let dateMs := g.startDate + i * intervalMsOf g.granularity
  let progress : ℚ := (i : ℚ) / (g.numPoints : ℚ)
  let rng := createSeededRandom dateMs
  let targetProgressNetWorth :=
    g.startingNetWorth * g.ops.pow (1 + totalGrowthRate)
      (progress * g.periodYears)
  let yearProgress :=
    ((jsGetMonth dateMs : ℚ) + (jsGetDate dateMs : ℚ) / 30) / 12
  let marketCycle := g.ops.sin (yearProgress * 2 * piF64) * 0.02
  let economicCycle := g.ops.sin (progress * 4 * piF64) * 0.03
  let nr := rng.normal g.ops 0 (g.volatilityPerInterval * 0.5)
  let variance := 1 + marketCycle + economicCycle + nr.1
  let currentNetWorth := targetProgressNetWorth * variance
  let contribution : ℚ := if g.granularity = .monthly then 1000 else 0
  let currentAssets :=
    currentNetWorth + currentLiabilities + contribution * progress
  let newLiabilities :=
    if g.granularity = .monthly then
      let decayed := currentLiabilities * 0.9995
      let rr := nr.2.range (-100) 100
      max 15000 (min 20000 (decayed + rr.1))
    else currentLiabilities
  if (i : ℤ) = g.numPoints then (g.forcedPoint, g.targetLiabilities)
  else
    ({ date := dateMs
       netWorth := round currentNetWorth
       totalAssets := round currentAssets
       totalLiabilities := round newLiabilities }, newLiabilities)

/-- The loop `for (let i = 0; i <= numPoints; i++)`, with `fuel` remaining
iterations, running from index `i` with carried liabilities `L`. -/
def genLoop (g : GenArgs) : ℕ → ℕ → ℚ → List HistoryPoint
  | 0, _, _ => []
  | fuel + 1, i, L =>
    let s := generateStep g i L
    s.1 :: genLoop g fuel (i + 1) s.2

/-- The carried `currentLiabilities` after running `fuel` iterations from
index `i` with initial value `L`. -/
def loopState (g : GenArgs) : ℕ → ℕ → ℚ → ℚ
  | 0, _, L => L
  | fuel + 1, i, L => loopState g fuel (i + 1) (generateStep g i L).2

/-- `generateRealisticHistory(startDate, endDate, granularity,
targetEndNetWorth)`.  The ambient `currentTotals` and the `Math.*` kernels
are passed explicitly; the source's own closure is the instance
`totals := currentTotals`. -/
def generateRealisticHistory (totals : CurrentTotals) (ops : MathOps)
    (startDate endDate : ℤ) (granularity : Granularity)
    (targetEndNetWorth : Option ℚ) : List HistoryPoint :=
  let g : GenArgs :=
    ⟨totals, ops, startDate, endDate, granularity, targetEndNetWorth⟩
  if g.numPoints < 0 then []
  else genLoop g (g.numPoints.toNat + 1) 0 g.targetLiabilities

/-! ## Declarative forms and consistency predicates for the aggregation

`assetContrib` / `liabilityContrib` express what one balance record adds to
each of the two running sums of `calculateCurrentTotals`;
`directAssetContrib` / `directLiabilityContrib` express the same per
account, reading the embedded `currentBalance`.  `ConsistentFixture` states
that a balance list is exactly the current balances embedded in the account
list (the shape the source's fixtures have).
-/

/-- What one current balance adds to `totalAssets`. -/
def assetContrib (accounts : List Account) (b : AccountBalance) : ℚ :=
  match accounts.find? (fun a => a.id == b.accountId) with
  | none => 0
  | some a => if assetTypeList.contains a.type then b.balance else 0

/-- What one current balance adds to `totalLiabilities`. -/
def liabilityContrib (accounts : List Account) (b : AccountBalance) : ℚ :=
  match accounts.find? (fun a => a.id == b.accountId) with
  | none => 0
  | some a =>
    if assetTypeList.contains a.type then 0
    else if liabilityTypeList.contains a.type then b.balance else 0

/-- Per-account asset contribution via the embedded current balance. -/
def directAssetContrib (a : Account) : ℚ :=
  if assetTypeList.contains a.type then accountCurrentBalanceValue a else 0

/-- Per-account liability contribution via the embedded current balance. -/
def directLiabilityContrib (a : Account) : ℚ :=
  if assetTypeList.contains a.type then 0
  else if liabilityTypeList.contains a.type then accountCurrentBalanceValue a
  else 0

/-- An account's embedded current balance, if any, points back at it. -/
def balanceLinked (a : Account) : Bool :=
  match a.currentBalance with
  | some b => b.accountId == a.id
  | none => true

/-- The balance list is exactly the accounts' embedded current balances:
filtering it to `isCurrent` yields each account's `currentBalance` in
account order, every embedded balance carries its owner's id, and account
ids are distinct. -/
def ConsistentFixture (accounts : List Account)
    (balances : List AccountBalance) : Prop :=
  balances.filter (fun b => b.isCurrent) =
      accounts.filterMap (fun a => a.currentBalance) ∧
    accounts.all balanceLinked = true ∧
    (accounts.map (fun a => a.id)).Nodup

instance (accounts : List Account) (balances : List AccountBalance) :
    Decidable (ConsistentFixture accounts balances) := by
  unfold ConsistentFixture
  infer_instance

/-- `sum(assetBreakdown.values())`. -/
def AssetBreakdown.total (b : AssetBreakdown) : ℚ :=
  b.cash + b.investments + b.property + b.vehicles + b.preciousMetals +
    b.digitalAssets + b.other

/-- `sum(liabilityBreakdown.values())`. -/
def LiabilityBreakdown.total (b : LiabilityBreakdown) : ℚ :=
  b.creditCards + b.mortgages + b.loans + b.other

/-! ## Small fixtures used by closed-form checks -/

/-- A lone wallet-typed account with a 100-unit current balance. -/
def walletBalance : AccountBalance := ⟨"wallet-bal-1", "wallet-1", 100, true⟩

/-- The owning wallet account. -/
def walletAccount : Account :=
  ⟨"wallet-1", .solana_wallet, "solana", .digital_asset, some walletBalance⟩

/-- A depository account holding a 5000 current balance. -/
def fixtureDepositoryBalance : AccountBalance := ⟨"dep-bal-1", "dep-1", 5000, true⟩

/-- The owning depository account. -/
def fixtureDepositoryAccount : Account :=
  ⟨"dep-1", .depository, "checking", .cash, some fixtureDepositoryBalance⟩

/-- A credit account holding a 1200 current balance. -/
def fixtureCreditBalance : AccountBalance := ⟨"cred-bal-1", "cred-1", 1200, true⟩

/-- The owning credit account. -/
def fixtureCreditAccount : Account :=
  ⟨"cred-1", .credit, "credit_card", .other, some fixtureCreditBalance⟩

/-- A manual-liability balance of 500. -/
def manualLiabilityBalance : AccountBalance := ⟨"ml-bal-1", "ml-1", 500, true⟩

/-- The owning manual-liability account. -/
def manualLiabilityAccount : Account :=
  ⟨"ml-1", .manual_liability, "other", .other, some manualLiabilityBalance⟩

/-! ## Sanity anchors for the calendar and seed embedding -/

theorem civilFromDays_epoch : civilFromDays 0 = (1970, 1, 1) := by decide

theorem civilFromDays_2024 : civilFromDays 19723 = (2024, 1, 1) := by decide

theorem createSeededRandom_2024 :
    (createSeededRandom (19723 * msPerDay)).seed = 20240101 := by decide

/-- The module-level `currentTotals` evaluates on the fixtures to assets
658000, liabilities 17500, net worth 640500 (wallet balances are counted in
neither sum). -/
theorem currentTotals_eq :
    currentTotals =
      { totalAssets := 658000, totalLiabilities := 17500,
        currentNetWorth := 640500 } := by
  have h1 : ∀ t : ℚ × ℚ,
      totalsStep mockAccounts t ⟨"bal-1", "acc-1", 12500, true⟩ = (t.1 + 12500, t.2) := by
    intro t
    simp [totalsStep, mockAccounts, assetTypeList, liabilityTypeList]
  have h2 : ∀ t : ℚ × ℚ,
      totalsStep mockAccounts t ⟨"bal-2", "acc-2", 25000, true⟩ = (t.1 + 25000, t.2) := by
    intro t
    simp [totalsStep, mockAccounts, assetTypeList, liabilityTypeList]
  have h3 : ∀ t : ℚ × ℚ,
      totalsStep mockAccounts t ⟨"bal-3", "acc-3", 85000, true⟩ = (t.1 + 85000, t.2) := by
    intro t
    simp [totalsStep, mockAccounts, assetTypeList, liabilityTypeList]
  have h4 : ∀ t : ℚ × ℚ,
      totalsStep mockAccounts t ⟨"bal-4", "acc-4", 42500, true⟩ = (t.1 + 42500, t.2) := by
    intro t
    simp [totalsStep, mockAccounts, assetTypeList, liabilityTypeList]
  have h5 : ∀ t : ℚ × ℚ,
      totalsStep mockAccounts t ⟨"bal-5", "acc-5", 2500, true⟩ = (t.1, t.2 + 2500) := by
    intro t
    simp [totalsStep, mockAccounts, assetTypeList, liabilityTypeList]
  have h6 : ∀ t : ℚ × ℚ,
      totalsStep mockAccounts t ⟨"bal-6", "acc-6", 15000, true⟩ = (t.1, t.2 + 15000) := by
    intro t
    simp [totalsStep, mockAccounts, assetTypeList, liabilityTypeList]
  have h7 : ∀ t : ℚ × ℚ,
      totalsStep mockAccounts t ⟨"bal-7", "acc-7", 350000, true⟩ = (t.1 + 350000, t.2) := by
    intro t
    simp [totalsStep, mockAccounts, assetTypeList, liabilityTypeList]
  have h8 : ∀ t : ℚ × ℚ,
      totalsStep mockAccounts t ⟨"bal-8", "acc-8", 28000, true⟩ = (t.1 + 28000, t.2) := by
    intro t
    simp [totalsStep, mockAccounts, assetTypeList, liabilityTypeList]
  have h9 : ∀ t : ℚ × ℚ,
      totalsStep mockAccounts t ⟨"bal-9", "acc-9", 25000, true⟩ = (t.1 + 25000, t.2) := by
    intro t
    simp [totalsStep, mockAccounts, assetTypeList, liabilityTypeList]
  have h10 : ∀ t : ℚ × ℚ,
      totalsStep mockAccounts t ⟨"bal-10", "acc-10", 15000, true⟩ = (t.1 + 15000, t.2) := by
    intro t
    simp [totalsStep, mockAccounts, assetTypeList, liabilityTypeList]
  have h11 : ∀ t : ℚ × ℚ,
      totalsStep mockAccounts t ⟨"bal-11", "acc-11", 11000, true⟩ = (t.1 + 11000, t.2) := by
    intro t
    simp [totalsStep, mockAccounts, assetTypeList, liabilityTypeList]
  have h12 : ∀ t : ℚ × ℚ,
      totalsStep mockAccounts t ⟨"bal-12", "acc-12", 16000, true⟩ = (t.1 + 16000, t.2) := by
    intro t
    simp [totalsStep, mockAccounts, assetTypeList, liabilityTypeList]
  have h13 : ∀ t : ℚ × ℚ,
      totalsStep mockAccounts t ⟨"bal-13", "acc-13", 20000, true⟩ = (t.1 + 20000, t.2) := by
    intro t
    simp [totalsStep, mockAccounts, assetTypeList, liabilityTypeList]
  have h14 : ∀ t : ℚ × ℚ,
      totalsStep mockAccounts t ⟨"bal-14", "acc-14", 8000, true⟩ = (t.1 + 8000, t.2) := by
    intro t
    simp [totalsStep, mockAccounts, assetTypeList, liabilityTypeList]
  have h15 : ∀ t : ℚ × ℚ,
      totalsStep mockAccounts t ⟨"bal-15", "acc-15", 20000, true⟩ = (t.1 + 20000, t.2) := by
    intro t
    simp [totalsStep, mockAccounts, assetTypeList, liabilityTypeList]
  have h16 : ∀ t : ℚ × ℚ,
      totalsStep mockAccounts t ⟨"bal-16", "acc-16", 12000, true⟩ = t := by
    intro t
    simp [totalsStep, mockAccounts, assetTypeList, liabilityTypeList]
  have h17 : ∀ t : ℚ × ℚ,
      totalsStep mockAccounts t ⟨"bal-17", "acc-17", 8500, true⟩ = t := by
    intro t
    simp [totalsStep, mockAccounts, assetTypeList, liabilityTypeList]
  have h18 : ∀ t : ℚ × ℚ,
      totalsStep mockAccounts t ⟨"bal-18", "acc-18", 15000, true⟩ = t := by
    intro t
    simp [totalsStep, mockAccounts, assetTypeList, liabilityTypeList]
  have hf : mockAccountBalances.filter (fun b => b.isCurrent) = 
      mockAccountBalances.take 18 := by
    simp [mockAccountBalances]
  norm_num [currentTotals, calculateCurrentTotals, hf, mockAccountBalances,
    List.take, h1, h2, h3, h4, h5, h6, h7, h8, h9, h10, h11, h12, h13, h14, h15, h16, h17, h18, CurrentTotals.mk.injEq]

/-! ## Generic facts about the simulator loop -/

theorem genLoop_length (g : GenArgs) (fuel : ℕ) :
    ∀ (i : ℕ) (L : ℚ), (genLoop g fuel i L).length = fuel := by
  induction fuel with
  | zero => intro i L; rfl
  | succ n ih => intro i L; simp only [genLoop, List.length_cons, ih]

theorem genLoop_getLast (g : GenArgs) (fuel : ℕ) :
    ∀ (i : ℕ) (L : ℚ),
      (genLoop g (fuel + 1) i L).getLast? =
        some (generateStep g (i + fuel) (loopState g fuel i L)).1 := by
  induction fuel with
  | zero => intro i L; rfl
  | succ n ih =>
    intro i L
    have hcons : genLoop g (n + 1 + 1) i L =
        (generateStep g i L).1 ::
          (generateStep g (i + 1) (generateStep g i L).2).1 ::
            genLoop g n (i + 1 + 1) (generateStep g (i + 1)
              (generateStep g i L).2).2 := rfl
    rw [hcons, List.getLast?_cons_cons]
    have htail :
        (generateStep g (i + 1) (generateStep g i L).2).1 ::
            genLoop g n (i + 1 + 1)
              (generateStep g (i + 1) (generateStep g i L).2).2 =
          genLoop g (n + 1) (i + 1) (generateStep g i L).2 := rfl
    rw [htail, ih]
    have harith : i + 1 + n = i + (n + 1) := by omega
    have hstate : loopState g (n + 1) i L =
        loopState g n (i + 1) (generateStep g i L).2 := rfl
    rw [harith, hstate]

theorem genLoop_get (g : GenArgs) (fuel : ℕ) :
    ∀ (i k : ℕ) (L : ℚ), k < fuel →
      (genLoop g fuel i L).get? k =
        some (generateStep g (i + k) (loopState g k i L)).1 := by
  induction fuel with
  | zero => intro i k L hk; omega
  | succ n ih =>
    intro i k L hk
    match k with
    | 0 => rfl
    | k + 1 =>
      have hcons : genLoop g (n + 1) i L =
          (generateStep g i L).1 :: genLoop g n (i + 1) (generateStep g i L).2 :=
        rfl
      rw [hcons]
      have : (((generateStep g i L).1 ::
          genLoop g n (i + 1) (generateStep g i L).2).get? (k + 1)) =
          (genLoop g n (i + 1) (generateStep g i L).2).get? k := rfl
      rw [this, ih (i + 1) k (generateStep g i L).2 (by omega)]
      have harith : i + 1 + k = i + (k + 1) := by omega
      have hstate : loopState g (k + 1) i L =
          loopState g k (i + 1) (generateStep g i L).2 := rfl
      rw [harith, hstate]

theorem loopState_inv (g : GenArgs) (P : ℚ → Prop)
    (hstep : ∀ (i : ℕ) (L : ℚ), P L → P (generateStep g i L).2) (fuel : ℕ) :
    ∀ (i : ℕ) (L : ℚ), P L → P (loopState g fuel i L) := by
  induction fuel with
  | zero => intro i L hL; exact hL
  | succ n ih => intro i L hL; exact ih (i + 1) _ (hstep i L hL)

theorem genLoop_mem (g : GenArgs) (P : ℚ → Prop)
    (hstep : ∀ (i : ℕ) (L : ℚ), P L → P (generateStep g i L).2) (fuel : ℕ) :
    ∀ (i : ℕ) (L : ℚ), P L → ∀ p ∈ genLoop g fuel i L,
      ∃ (j : ℕ) (L' : ℚ), P L' ∧ p = (generateStep g j L').1 := by
  induction fuel with
  | zero => intro i L _ p hp; simp [genLoop] at hp
  | succ n ih =>
    intro i L hL p hp
    have hcons : genLoop g (n + 1) i L =
        (generateStep g i L).1 :: genLoop g n (i + 1) (generateStep g i L).2 :=
      rfl
    rw [hcons, List.mem_cons] at hp
    rcases hp with h | h
    · exact ⟨i, L, hL, h⟩
    · exact ih (i + 1) _ (hstep i L hL) p h

/-! ## Facts about one loop iteration -/

theorem round_nonneg_of_nonneg {x : ℚ} (h : 0 ≤ x) : (0 : ℤ) ≤ round x := by
  rw [round_eq]
  exact Int.le_floor.mpr (by linarith)

theorem round_mem_band {x : ℚ} {lo hi : ℤ} (h1 : (lo : ℚ) ≤ x)
    (h2 : x ≤ (hi : ℚ)) : lo ≤ round x ∧ round x ≤ hi := by
  constructor
  · rw [round_eq]
    exact Int.le_floor.mpr (by linarith)
  · rw [round_eq]
    have : ⌊x + 1 / 2⌋ < hi + 1 := Int.floor_lt.mpr (by push_cast; linarith)
    omega

/-- At `i === numPoints` the iteration yields the forced final point and
resets the carried liabilities to the target. -/
theorem generateStep_forced (g : GenArgs) (i : ℕ) (L : ℚ)
    (h : (i : ℤ) = g.numPoints) :
    generateStep g i L = (g.forcedPoint, g.targetLiabilities) := by
  simp only [generateStep, h, if_true, ite_true]

/-- Away from the final index, the stored `totalLiabilities` is the rounded
carried state. -/
theorem generateStep_liab_round (g : GenArgs) (i : ℕ) (L : ℚ)
    (h : (i : ℤ) ≠ g.numPoints) :
    (generateStep g i L).1.totalLiabilities = round (generateStep g i L).2 := by
  simp only [generateStep, h, if_false, ite_false]

/-- For monthly granularity, every non-final iteration clamps the carried
liabilities into `[15000, 20000]`. -/
theorem generateStep_snd_monthly (g : GenArgs) (i : ℕ) (L : ℚ)
    (hgr : g.granularity = .monthly) (h : (i : ℤ) ≠ g.numPoints) :
    15000 ≤ (generateStep g i L).2 ∧ (generateStep g i L).2 ≤ 20000 := by
  simp only [generateStep, hgr, h, if_false, ite_false, if_pos rfl]
  exact ⟨le_max_left _ _, max_le (by norm_num) (min_le_left _ _)⟩

/-- For non-monthly granularity, a non-final iteration leaves the carried
liabilities unchanged. -/
theorem generateStep_snd_nonmonthly (g : GenArgs) (i : ℕ) (L : ℚ)
    (hgr : g.granularity ≠ .monthly) (h : (i : ℤ) ≠ g.numPoints) :
    (generateStep g i L).2 = L := by
  simp only [generateStep, hgr, h, if_false, ite_false]

/-- The carried liabilities stay nonnegative when the target liabilities
are. -/
theorem generateStep_snd_nonneg (g : GenArgs)
    (htL : 0 ≤ g.targetLiabilities) (i : ℕ) (L : ℚ) (hL : 0 ≤ L) :
    0 ≤ (generateStep g i L).2 := by
  by_cases h : (i : ℤ) = g.numPoints
  · rw [generateStep_forced g i L h]; exact htL
  · by_cases hgr : g.granularity = .monthly
    · have := (generateStep_snd_monthly g i L hgr h).1
      linarith
    · rw [generateStep_snd_nonmonthly g i L hgr h]; exact hL

/-! ## Bridge lemmas for the simulator -/

theorem generateRealisticHistory_eq (g : GenArgs) :
    generateRealisticHistory g.totals g.ops g.startDate g.endDate
        g.granularity g.targetEndNetWorth =
      if g.numPoints < 0 then []
      else genLoop g (g.numPoints.toNat + 1) 0 g.targetLiabilities := by
  cases g
  rfl

theorem generateRealisticHistory_length (g : GenArgs) (h : 0 ≤ g.numPoints) :
    (generateRealisticHistory g.totals g.ops g.startDate g.endDate
        g.granularity g.targetEndNetWorth).length = g.numPoints.toNat + 1 := by
  rw [generateRealisticHistory_eq g, if_neg (not_lt.mpr h), genLoop_length]

theorem generateRealisticHistory_nil (g : GenArgs) (h : g.numPoints < 0) :
    generateRealisticHistory g.totals g.ops g.startDate g.endDate
      g.granularity g.targetEndNetWorth = [] := by
  rw [generateRealisticHistory_eq g, if_pos h]

/-- Whenever the loop runs at all, the returned series ends with the forced
final point. -/
theorem generateRealisticHistory_last (g : GenArgs) (h : 0 ≤ g.numPoints) :
    (generateRealisticHistory g.totals g.ops g.startDate g.endDate
        g.granularity g.targetEndNetWorth).getLast? = some g.forcedPoint := by
  rw [generateRealisticHistory_eq g, if_neg (not_lt.mpr h), genLoop_getLast]
  have hidx : ((0 + g.numPoints.toNat : ℕ) : ℤ) = g.numPoints := by
    rw [Nat.zero_add, Int.toNat_of_nonneg h]
  rw [generateStep_forced g _ _ hidx]

theorem intervalMsOf_pos (gr : Granularity) : 0 < intervalMsOf gr := by
  cases gr <;> decide

theorem numPoints_nonneg_of_lt (g : GenArgs) (h : g.startDate < g.endDate) :
    0 ≤ g.numPoints :=
  Int.fdiv_nonneg (by unfold GenArgs.totalDuration; omega)
    (le_of_lt (intervalMsOf_pos g.granularity))

theorem numPoints_eq_zero_of_eq (g : GenArgs) (h : g.startDate = g.endDate) :
    g.numPoints = 0 := by
  unfold GenArgs.numPoints GenArgs.totalDuration
  rw [h, sub_self, Int.zero_fdiv]

/-- With coinciding start and end dates the series is exactly the forced
point. -/
theorem generateRealisticHistory_single (g : GenArgs)
    (h : g.startDate = g.endDate) :
    generateRealisticHistory g.totals g.ops g.startDate g.endDate
      g.granularity g.targetEndNetWorth = [g.forcedPoint] := by
  have hnp := numPoints_eq_zero_of_eq g h
  rw [generateRealisticHistory_eq g, if_neg (by omega), hnp]
  show (generateStep g 0 g.targetLiabilities).1 ::
      genLoop g 0 1 (generateStep g 0 g.targetLiabilities).2 = _
  rw [generateStep_forced g 0 _ (by rw [hnp]; rfl)]
  rfl

/-- The first point of a nonempty series is the index-0 iteration started
from the target liabilities. -/
theorem generateRealisticHistory_get0 (g : GenArgs) (h : 0 ≤ g.numPoints) :
    (generateRealisticHistory g.totals g.ops g.startDate g.endDate
        g.granularity g.targetEndNetWorth).get? 0 =
      some (generateStep g 0 g.targetLiabilities).1 := by
  rw [generateRealisticHistory_eq g, if_neg (not_lt.mpr h)]
  exact genLoop_get g (g.numPoints.toNat + 1) 0 0 g.targetLiabilities (by omega)

theorem numPoints_nonpos_of_le (g : GenArgs) (h : g.endDate ≤ g.startDate) :
    g.numPoints ≤ 0 := by
  unfold GenArgs.numPoints GenArgs.totalDuration
  have hb := intervalMsOf_pos g.granularity
  rw [Int.fdiv_eq_ediv _ (by omega)]
  have hd : g.endDate - g.startDate ≤ 0 := by omega
  simpa using Int.ediv_le_ediv hb hd

/-! ## Claims -/

/-- **C1** (amended).  For every call with `startDate < endDate`, the last
point of the returned series has date exactly the requested end date, and
netWorth / totalAssets / totalLiabilities equal to the derived target net
worth, target assets and target liabilities **rounded to the nearest
integer** (`Math.round` is applied when the point is pushed) — hence exactly
the targets whenever the targets are whole numbers, as the fixture-derived
defaults are. -/
theorem C1_last_point_rounded_targets (g : GenArgs)
    (h : g.startDate < g.endDate) :
    (generateRealisticHistory g.totals g.ops g.startDate g.endDate
        g.granularity g.targetEndNetWorth).getLast? =
      some { date := g.endDate
             netWorth := round g.targetNetWorth
             totalAssets := round g.targetAssets
             totalLiabilities := round g.targetLiabilities } :=
  generateRealisticHistory_last g (numPoints_nonneg_of_lt g h)

theorem C1_last_point_rounded_targets_witness :
    ((⟨⟨658000, 17500, 640500⟩, zeroOps, 0, msPerDay, .daily,
        none⟩ : GenArgs).startDate <
      (⟨⟨658000, 17500, 640500⟩, zeroOps, 0, msPerDay, .daily,
        none⟩ : GenArgs).endDate) ∧
    (generateRealisticHistory ⟨658000, 17500, 640500⟩ zeroOps 0 msPerDay
        .daily none).getLast? =
      some { date := msPerDay
             netWorth := round (GenArgs.targetNetWorth
               ⟨⟨658000, 17500, 640500⟩, zeroOps, 0, msPerDay, .daily, none⟩)
             totalAssets := round (GenArgs.targetAssets
               ⟨⟨658000, 17500, 640500⟩, zeroOps, 0, msPerDay, .daily, none⟩)
             totalLiabilities := round (GenArgs.targetLiabilities
               ⟨⟨658000, 17500, 640500⟩, zeroOps, 0, msPerDay, .daily,
                 none⟩) } :=
  ⟨by decide,
    C1_last_point_rounded_targets
      ⟨⟨658000, 17500, 640500⟩, zeroOps, 0, msPerDay, .daily, none⟩
      (by decide)⟩

/-- **C1** counterexample to the claim as stated: with the fixture totals
and a requested (non-integer) target net worth of `201/2`, a one-day daily
series ends with `netWorth = 101 ≠ 201/2`: the final point equals the
*rounded* target, not the target itself. -/
theorem C1_counterexample :
    (0 : ℤ) < msPerDay ∧
    ((generateRealisticHistory currentTotals zeroOps 0 msPerDay .daily
        (some (201 / 2))).getLast?.map (fun p => (p.netWorth : ℚ))) =
      some 101 ∧
    (101 : ℚ) ≠ 201 / 2 := by
  refine ⟨by decide, ?_, by norm_num⟩
  rw [currentTotals_eq]
  rw [generateRealisticHistory_last
    ⟨⟨658000, 17500, 640500⟩, zeroOps, 0, msPerDay, .daily, some (201 / 2)⟩
    (by decide)]
  norm_num [GenArgs.forcedPoint, GenArgs.targetNetWorth, round_eq]

/-- **C6** (amended).  A start date at or after the end date yields a
single-point or empty series; with start == end the series is exactly one
point, namely the forced point carrying the **rounded** targets (hence
exactly the targets whenever they are whole numbers). -/
theorem C6_degenerate_range (g : GenArgs) :
    (g.endDate ≤ g.startDate →
      (generateRealisticHistory g.totals g.ops g.startDate g.endDate
          g.granularity g.targetEndNetWorth).length ≤ 1) ∧
    (g.startDate = g.endDate →
      generateRealisticHistory g.totals g.ops g.startDate g.endDate
          g.granularity g.targetEndNetWorth =
        [{ date := g.endDate
           netWorth := round g.targetNetWorth
           totalAssets := round g.targetAssets
           totalLiabilities := round g.targetLiabilities }]) := by
  constructor
  · intro h
    have hnp := numPoints_nonpos_of_le g h
    by_cases hneg : g.numPoints < 0
    · rw [generateRealisticHistory_nil g hneg]
      decide
    · rw [generateRealisticHistory_length g (by omega)]
      omega
  · intro h
    exact generateRealisticHistory_single g h

theorem C6_degenerate_range_witness :
    ((⟨⟨658000, 17500, 640500⟩, zeroOps, 0, 0, .monthly, none⟩ :
        GenArgs).endDate ≤ 0 ∧
      (generateRealisticHistory ⟨658000, 17500, 640500⟩ zeroOps 0 0 .monthly
          none).length ≤ 1) ∧
    generateRealisticHistory ⟨658000, 17500, 640500⟩ zeroOps 0 0 .monthly
        none =
      [{ date := 0
         netWorth := round (GenArgs.targetNetWorth
           ⟨⟨658000, 17500, 640500⟩, zeroOps, 0, 0, .monthly, none⟩)
         totalAssets := round (GenArgs.targetAssets
           ⟨⟨658000, 17500, 640500⟩, zeroOps, 0, 0, .monthly, none⟩)
         totalLiabilities := round (GenArgs.targetLiabilities
           ⟨⟨658000, 17500, 640500⟩, zeroOps, 0, 0, .monthly, none⟩) }] :=
  ⟨⟨le_refl 0,
      (C6_degenerate_range
        ⟨⟨658000, 17500, 640500⟩, zeroOps, 0, 0, .monthly, none⟩).1
        (le_refl 0)⟩,
    (C6_degenerate_range
      ⟨⟨658000, 17500, 640500⟩, zeroOps, 0, 0, .monthly, none⟩).2 rfl⟩

/-- **C6** counterexample to the claim as stated: with start == end and a
requested non-integer target net worth of `201/2`, the single returned point
carries the rounded values `netWorth = 101`, `totalAssets = 17601` — not
"exactly the target values". -/
theorem C6_counterexample :
    generateRealisticHistory currentTotals zeroOps 0 0 .monthly
        (some (201 / 2)) =
      [{ date := 0, netWorth := 101, totalAssets := 17601,
         totalLiabilities := 17500 }] ∧
    ((101 : ℤ) : ℚ) ≠ 201 / 2 := by
  constructor
  · rw [currentTotals_eq]
    rw [generateRealisticHistory_single
      ⟨⟨658000, 17500, 640500⟩, zeroOps, 0, 0, .monthly, some (201 / 2)⟩ rfl]
    norm_num [GenArgs.forcedPoint, GenArgs.targetNetWorth,
      GenArgs.targetAssets, GenArgs.targetLiabilities, round_eq]
  · norm_num

/-- **C8** (amended).  Every generated point has `totalLiabilities ≥ 0`
whenever the ambient liability total is nonnegative (as the fixture's
17500 is); the claimed `totalAssets ≥ 0` does **not** hold for every
accepted input — see the counterexample with a negative target. -/
theorem C8_liabilities_nonneg (g : GenArgs)
    (h : 0 ≤ g.totals.totalLiabilities) :
    ∀ p ∈ generateRealisticHistory g.totals g.ops g.startDate g.endDate
        g.granularity g.targetEndNetWorth, 0 ≤ p.totalLiabilities := by
  intro p hp
  have htL : 0 ≤ g.targetLiabilities := h
  by_cases hneg : g.numPoints < 0
  · rw [generateRealisticHistory_nil g hneg] at hp
    cases hp
  · rw [generateRealisticHistory_eq g, if_neg hneg] at hp
    obtain ⟨j, L', hL', rfl⟩ :=
      genLoop_mem g (fun L => 0 ≤ L) (generateStep_snd_nonneg g htL) _ _ _
        htL p hp
    by_cases hj : (j : ℤ) = g.numPoints
    · rw [generateStep_forced g j L' hj]
      exact round_nonneg_of_nonneg htL
    · rw [generateStep_liab_round g j L' hj]
      exact round_nonneg_of_nonneg (generateStep_snd_nonneg g htL j L' hL')

theorem C8_liabilities_nonneg_witness :
    (0 : ℚ) ≤ (⟨⟨658000, 17500, 640500⟩, zeroOps, 0, 0, .monthly,
        none⟩ : GenArgs).totals.totalLiabilities ∧
    (0 : ℤ) ≤ (GenArgs.forcedPoint
      ⟨⟨658000, 17500, 640500⟩, zeroOps, 0, 0, .monthly,
        none⟩).totalLiabilities :=
  ⟨by decide,
    C8_liabilities_nonneg
      ⟨⟨658000, 17500, 640500⟩, zeroOps, 0, 0, .monthly, none⟩ (by decide)
      _ (by
        rw [generateRealisticHistory_single
          ⟨⟨658000, 17500, 640500⟩, zeroOps, 0, 0, .monthly, none⟩ rfl]
        exact List.mem_singleton.mpr rfl)⟩

/-- **C8** counterexample to the claim as stated: a call with target net
worth `-50000` (accepted by the function) produces a point with
`totalAssets = -32500 < 0`. -/
theorem C8_counterexample :
    generateRealisticHistory currentTotals zeroOps 0 0 .monthly
        (some (-50000)) =
      [{ date := 0, netWorth := -50000, totalAssets := -32500,
         totalLiabilities := 17500 }] ∧
    (-32500 : ℤ) < 0 := by
  constructor
  · rw [currentTotals_eq]
    rw [generateRealisticHistory_single
      ⟨⟨658000, 17500, 640500⟩, zeroOps, 0, 0, .monthly, some (-50000)⟩ rfl]
    norm_num [GenArgs.forcedPoint, GenArgs.targetNetWorth,
      GenArgs.targetAssets, GenArgs.targetLiabilities, round_eq]
  · norm_num

/-- Closed evaluation of the index-0 iteration of a 30-day monthly call with
the fixture totals, start 2024-01-01T00:00Z, under the `zeroOps` kernels:
the LCG draw moves the carried liabilities from 17500 to
`17500*0.9995 - 100 + (1749023794/2^32)*200 = 4690290921585/2^28 ≈ 17472.7`,
stored rounded as 17473. -/
theorem generateStep_eval_c10 :
    generateStep
        ⟨⟨658000, 17500, 640500⟩, zeroOps, 1704067200000,
          1704067200000 + 30 * msPerDay, .monthly, none⟩ 0 17500 =
      ({ date := 1704067200000, netWorth := 640500, totalAssets := 658000,
         totalLiabilities := 17473 }, 4690290921585 / 268435456) := by
  have hne : (((0 : ℕ) : ℤ)) ≠
      GenArgs.numPoints ⟨⟨658000, 17500, 640500⟩, zeroOps, 1704067200000,
        1704067200000 + 30 * msPerDay, .monthly, none⟩ := by decide
  have hseed : createSeededRandom 1704067200000 = ⟨20240101, none⟩ := by decide
  have hmon : jsGetMonth 1704067200000 = 0 := by decide
  have hdate : jsGetDate 1704067200000 = 1 := by decide
  have hl1 : lcgStep 20240101 = 1444551424 := by decide
  have hl2 : lcgStep 1444551424 = 2776912479 := by decide
  have hl3 : lcgStep 2776912479 = 1749023794 := by decide
  simp only [generateStep]
  rw [if_neg hne]
  norm_num [hseed, hmon, hdate, hl1, hl2, hl3,
    GenArgs.startingNetWorth, GenArgs.targetNetWorth, GenArgs.periodYears,
    GenArgs.volatilityPerInterval, GenArgs.totalDuration, intervalMsOf,
    msPerDay, zeroOps, SeededRandom.normal, SeededRandom.next,
    SeededRandom.range, totalGrowthRate, volatility, piF64,
    max_def, min_def, round_eq, Prod.ext_iff, HistoryPoint.mk.injEq]

/-- **C10**.  For monthly granularity, every point except the forced final
one stores liabilities clamped into the fixed band `[15000, 20000]`,
independently of the caller's target and of the ambient liability total. -/
theorem C10_monthly_liability_band (g : GenArgs)
    (hgr : g.granularity = .monthly) (i : ℕ) (p : HistoryPoint)
    (hi : (i : ℤ) < g.numPoints)
    (hp : (generateRealisticHistory g.totals g.ops g.startDate g.endDate
        g.granularity g.targetEndNetWorth).get? i = some p) :
    15000 ≤ p.totalLiabilities ∧ p.totalLiabilities ≤ 20000 := by
  have hnn : 0 ≤ g.numPoints := le_trans (Int.ofNat_nonneg i) (le_of_lt hi)
  rw [generateRealisticHistory_eq g, if_neg (not_lt.mpr hnn)] at hp
  have hk : i < g.numPoints.toNat + 1 := by omega
  rw [genLoop_get g (g.numPoints.toNat + 1) 0 i g.targetLiabilities hk] at hp
  have hpe := Option.some.inj hp
  have hne : ((i : ℕ) : ℤ) ≠ g.numPoints := by omega
  rw [Nat.zero_add] at hpe
  subst hpe
  rw [generateStep_liab_round g i _ hne]
  have hband := generateStep_snd_monthly g i
    (loopState g i 0 g.targetLiabilities) hgr hne
  exact round_mem_band (by exact_mod_cast hband.1) (by exact_mod_cast hband.2)

theorem C10_monthly_liability_band_witness :
    ((⟨⟨658000, 17500, 640500⟩, zeroOps, 1704067200000,
        1704067200000 + 30 * msPerDay, .monthly, none⟩ :
          GenArgs).granularity = .monthly) ∧
    (((0 : ℕ) : ℤ) <
      GenArgs.numPoints ⟨⟨658000, 17500, 640500⟩, zeroOps, 1704067200000,
        1704067200000 + 30 * msPerDay, .monthly, none⟩) ∧
    ((15000 : ℤ) ≤ 17473 ∧ (17473 : ℤ) ≤ 20000) :=
  ⟨rfl, by decide,
    C10_monthly_liability_band
      ⟨⟨658000, 17500, 640500⟩, zeroOps, 1704067200000,
        1704067200000 + 30 * msPerDay, .monthly, none⟩ rfl 0
      { date := 1704067200000, netWorth := 640500, totalAssets := 658000,
        totalLiabilities := 17473 }
      (by decide)
      ((generateRealisticHistory_get0
          ⟨⟨658000, 17500, 640500⟩, zeroOps, 1704067200000,
            1704067200000 + 30 * msPerDay, .monthly, none⟩ (by decide)).trans
        (congrArg some (congrArg Prod.fst generateStep_eval_c10)))⟩

/-- **C3**.  Two calls of the simulator with identical inputs (including the
ambient closed-over totals and `Math` kernels) return identical point
sequences; and the per-sample generator seed is derived from the sample's
own calendar date as `year*10000 + (month+1)*100 + day`. -/
theorem C3_deterministic (g1 g2 : GenArgs) (hto : g1.totals = g2.totals)
    (hops : g1.ops = g2.ops) (hs : g1.startDate = g2.startDate)
    (he : g1.endDate = g2.endDate) (hgr : g1.granularity = g2.granularity)
    (ht : g1.targetEndNetWorth = g2.targetEndNetWorth) :
    generateRealisticHistory g1.totals g1.ops g1.startDate g1.endDate
        g1.granularity g1.targetEndNetWorth =
      generateRealisticHistory g2.totals g2.ops g2.startDate g2.endDate
        g2.granularity g2.targetEndNetWorth ∧
    ∀ d : ℤ, (createSeededRandom d).seed =
      (jsGetFullYear d * 10000 + (jsGetMonth d + 1) * 100 +
        jsGetDate d).toNat := by
  refine ⟨?_, fun d => rfl⟩
  rw [hto, hops, hs, he, hgr, ht]

theorem C3_deterministic_witness :
    ((⟨⟨658000, 17500, 640500⟩, zeroOps, 0, msPerDay, .daily,
        none⟩ : GenArgs).totals = ⟨658000, 17500, 640500⟩) ∧
    (generateRealisticHistory ⟨658000, 17500, 640500⟩ zeroOps 0 msPerDay
        .daily none =
      generateRealisticHistory ⟨658000, 17500, 640500⟩ zeroOps 0 msPerDay
        .daily none ∧
    ∀ d : ℤ, (createSeededRandom d).seed =
      (jsGetFullYear d * 10000 + (jsGetMonth d + 1) * 100 +
        jsGetDate d).toNat) :=
  ⟨rfl,
    C3_deterministic
      ⟨⟨658000, 17500, 640500⟩, zeroOps, 0, msPerDay, .daily, none⟩
      ⟨⟨658000, 17500, 640500⟩, zeroOps, 0, msPerDay, .daily, none⟩
      rfl rfl rfl rfl rfl rfl⟩

/-- **C9**.  `SeededRandom.normal` implements Box-Muller with paired
caching: from a state with no cached spare, a call advances the LCG exactly
twice, returns the cosine branch scaled by its own `stdDev`/`mean`, and
caches the unscaled sine branch; the immediately following call advances the
LCG zero times, returns that cached spare scaled by its own
`stdDev`/`mean`, and clears the cache. -/
theorem C9_box_muller_pairing (ops : MathOps) (r : SeededRandom)
    (m1 s1 m2 s2 : ℚ) (h : r.spareNormal = none) :
    (r.normal ops m1 s1).1 =
        ops.sqrt (-2 * ops.log ((lcgStep r.seed : ℚ) / 2 ^ 32)) *
          ops.cos (2 * piF64 * ((lcgStep (lcgStep r.seed) : ℚ) / 2 ^ 32)) *
            s1 + m1 ∧
    (r.normal ops m1 s1).2.seed = lcgStep (lcgStep r.seed) ∧
    (r.normal ops m1 s1).2.spareNormal =
        some (ops.sqrt (-2 * ops.log ((lcgStep r.seed : ℚ) / 2 ^ 32)) *
          ops.sin (2 * piF64 * ((lcgStep (lcgStep r.seed) : ℚ) / 2 ^ 32))) ∧
    ((r.normal ops m1 s1).2.normal ops m2 s2).1 =
        ops.sqrt (-2 * ops.log ((lcgStep r.seed : ℚ) / 2 ^ 32)) *
          ops.sin (2 * piF64 * ((lcgStep (lcgStep r.seed) : ℚ) / 2 ^ 32)) *
            s2 + m2 ∧
    ((r.normal ops m1 s1).2.normal ops m2 s2).2.seed =
        (r.normal ops m1 s1).2.seed ∧
    ((r.normal ops m1 s1).2.normal ops m2 s2).2.spareNormal = none := by
  obtain ⟨seed, spare⟩ := r
  cases spare with
  | none => exact ⟨rfl, rfl, rfl, rfl, rfl, rfl⟩
  | some q => cases h

theorem C9_box_muller_pairing_witness :
    ((⟨12345, none⟩ : SeededRandom).spareNormal = none) ∧
    ((SeededRandom.normal zeroOps ⟨12345, none⟩ 1 2).1 =
        zeroOps.sqrt (-2 * zeroOps.log ((lcgStep 12345 : ℚ) / 2 ^ 32)) *
          zeroOps.cos (2 * piF64 * ((lcgStep (lcgStep 12345) : ℚ) / 2 ^ 32)) *
            2 + 1 ∧
      (SeededRandom.normal zeroOps ⟨12345, none⟩ 1 2).2.seed =
        lcgStep (lcgStep 12345) ∧
      (SeededRandom.normal zeroOps ⟨12345, none⟩ 1 2).2.spareNormal =
        some (zeroOps.sqrt (-2 * zeroOps.log ((lcgStep 12345 : ℚ) / 2 ^ 32)) *
          zeroOps.sin
            (2 * piF64 * ((lcgStep (lcgStep 12345) : ℚ) / 2 ^ 32))) ∧
      ((SeededRandom.normal zeroOps ⟨12345, none⟩ 1 2).2.normal zeroOps
          3 4).1 =
        zeroOps.sqrt (-2 * zeroOps.log ((lcgStep 12345 : ℚ) / 2 ^ 32)) *
          zeroOps.sin (2 * piF64 * ((lcgStep (lcgStep 12345) : ℚ) / 2 ^ 32)) *
            4 + 3 ∧
      ((SeededRandom.normal zeroOps ⟨12345, none⟩ 1 2).2.normal zeroOps
          3 4).2.seed =
        (SeededRandom.normal zeroOps ⟨12345, none⟩ 1 2).2.seed ∧
      ((SeededRandom.normal zeroOps ⟨12345, none⟩ 1 2).2.normal zeroOps
          3 4).2.spareNormal = none) :=
  ⟨rfl, C9_box_muller_pairing zeroOps ⟨12345, none⟩ 1 2 3 4 rfl⟩

/-- Away from the final index and off the monthly branch, a stored point
satisfies `netWorth = totalAssets - totalLiabilities` whenever the carried
liabilities are a whole number. -/
theorem generateStep_balanced_nonmonthly (g : GenArgs) (i : ℕ) (z : ℤ)
    (hgr : g.granularity ≠ .monthly) (hne : (i : ℤ) ≠ g.numPoints) :
    (generateStep g i ((z : ℚ))).1.netWorth =
      (generateStep g i ((z : ℚ))).1.totalAssets -
        (generateStep g i ((z : ℚ))).1.totalLiabilities := by
  simp only [generateStep, hne, hgr, if_false, ite_false, zero_mul, add_zero]
  rw [round_add_int, round_intCast]
  omega

/-- The forced final point satisfies the identity whenever the ambient
liability total is a whole number. -/
theorem forcedPoint_balanced (g : GenArgs) (z : ℤ)
    (hz : g.totals.totalLiabilities = (z : ℚ)) :
    g.forcedPoint.netWorth =
      g.forcedPoint.totalAssets - g.forcedPoint.totalLiabilities := by
  simp only [GenArgs.forcedPoint, GenArgs.targetAssets,
    GenArgs.targetLiabilities, hz]
  rw [round_add_int, round_intCast]
  omega

/-- **C4** (amended).  `netWorth = totalAssets - totalLiabilities` holds for
every point of daily, weekly and quarterly series, and for the forced final
point at every granularity (given the ambient liability total is a whole
number, as the fixture's 17500 is) — but **not** for the intermediate points
of monthly series, where the `contribution * progress` accrual and the
liability drift enter `totalAssets` and `totalLiabilities` asymmetrically;
see the counterexample. -/
theorem C4_net_worth_identity (g : GenArgs) (z : ℤ)
    (hz : g.totals.totalLiabilities = (z : ℚ)) :
    (g.granularity ≠ .monthly →
      ∀ p ∈ generateRealisticHistory g.totals g.ops g.startDate g.endDate
          g.granularity g.targetEndNetWorth,
        p.netWorth = p.totalAssets - p.totalLiabilities) ∧
    (∀ p, (generateRealisticHistory g.totals g.ops g.startDate g.endDate
        g.granularity g.targetEndNetWorth).getLast? = some p →
      p.netWorth = p.totalAssets - p.totalLiabilities) := by
  have htLz : g.targetLiabilities = (z : ℚ) := hz
  constructor
  · intro hgr p hp
    by_cases hneg : g.numPoints < 0
    · rw [generateRealisticHistory_nil g hneg] at hp
      cases hp
    · rw [generateRealisticHistory_eq g, if_neg hneg] at hp
      have hstep : ∀ (i : ℕ) (L : ℚ), L = (z : ℚ) →
          (generateStep g i L).2 = (z : ℚ) := by
        intro i L hL
        by_cases hj : (i : ℤ) = g.numPoints
        · rw [generateStep_forced g i L hj]
          exact htLz
        · rw [generateStep_snd_nonmonthly g i L hgr hj, hL]
      obtain ⟨j, L', hL', rfl⟩ :=
        genLoop_mem g (fun L => L = (z : ℚ)) hstep _ _ _ htLz p hp
      by_cases hj : (j : ℤ) = g.numPoints
      · rw [generateStep_forced g j L' hj]
        exact forcedPoint_balanced g z hz
      · rw [hL']
        exact generateStep_balanced_nonmonthly g j z hgr hj
  · intro p hp
    by_cases hneg : g.numPoints < 0
    · rw [generateRealisticHistory_nil g hneg] at hp
      cases hp
    · rw [generateRealisticHistory_last g (by omega)] at hp
      rw [← Option.some.inj hp]
      exact forcedPoint_balanced g z hz

theorem C4_net_worth_identity_witness :
    ((⟨⟨658000, 17500, 640500⟩, zeroOps, 0, msPerDay, .daily,
        none⟩ : GenArgs).totals.totalLiabilities = ((17500 : ℤ) : ℚ)) ∧
    (((⟨⟨658000, 17500, 640500⟩, zeroOps, 0, msPerDay, .daily,
          none⟩ : GenArgs).granularity ≠ .monthly →
      ∀ p ∈ generateRealisticHistory ⟨658000, 17500, 640500⟩ zeroOps 0
          msPerDay .daily none,
        p.netWorth = p.totalAssets - p.totalLiabilities) ∧
    (∀ p, (generateRealisticHistory ⟨658000, 17500, 640500⟩ zeroOps 0
        msPerDay .daily none).getLast? = some p →
      p.netWorth = p.totalAssets - p.totalLiabilities)) :=
  ⟨by simp,
    C4_net_worth_identity
      ⟨⟨658000, 17500, 640500⟩, zeroOps, 0, msPerDay, .daily, none⟩ 17500
      (by simp)⟩

/-- **C4** counterexample to the claim as stated: in a 30-day monthly series
with the fixture totals, the first point stores
`netWorth = 640500`, `totalAssets = 658000`, `totalLiabilities = 17473`
(assets still reflect the pre-update liabilities 17500 while the stored
liabilities have drifted), and `640500 ≠ 658000 - 17473`. -/
theorem C4_counterexample :
    (generateRealisticHistory currentTotals zeroOps 1704067200000
        (1704067200000 + 30 * msPerDay) .monthly none).get? 0 =
      some { date := 1704067200000, netWorth := 640500, totalAssets := 658000,
             totalLiabilities := 17473 } ∧
    (640500 : ℤ) ≠ 658000 - 17473 := by
  refine ⟨?_, by decide⟩
  rw [currentTotals_eq]
  exact (generateRealisticHistory_get0
      ⟨⟨658000, 17500, 640500⟩, zeroOps, 1704067200000,
        1704067200000 + 30 * msPerDay, .monthly, none⟩ (by decide)).trans
    (congrArg some (congrArg Prod.fst generateStep_eval_c10))

/-- **C5** (amended).  With a zero ambient liability total, a monthly call
over a 365-day span targeting net worth 100000 yields exactly 13 points,
and the last point is `(end date, 100000, 100000, 0)`.  The intermediate
points' liabilities, however, are **not** held at 0: the monthly clamp
forces them into `[15000, 20000]` — see the counterexample. -/
theorem C5_monthly_year_scenario (totals : CurrentTotals) (ops : MathOps)
    (s : ℤ) (hL0 : totals.totalLiabilities = 0) :
    (generateRealisticHistory totals ops s (s + 365 * msPerDay) .monthly
        (some 100000)).length = 13 ∧
    (generateRealisticHistory totals ops s (s + 365 * msPerDay) .monthly
        (some 100000)).getLast? =
      some { date := s + 365 * msPerDay, netWorth := 100000,
             totalAssets := 100000, totalLiabilities := 0 } := by
  have hnp : (⟨totals, ops, s, s + 365 * msPerDay, .monthly,
      some 100000⟩ : GenArgs).numPoints = 12 := by
    unfold GenArgs.numPoints GenArgs.totalDuration
    have harith : s + 365 * msPerDay - s = 365 * msPerDay := by ring
    rw [show (⟨totals, ops, s, s + 365 * msPerDay, .monthly,
      some 100000⟩ : GenArgs).endDate - s = 365 * msPerDay from harith]
    show Int.fdiv (365 * msPerDay) (intervalMsOf .monthly) = 12
    decide
  constructor
  · rw [generateRealisticHistory_length
      ⟨totals, ops, s, s + 365 * msPerDay, .monthly, some 100000⟩
      (by omega), hnp]
    rfl
  · rw [generateRealisticHistory_last
      ⟨totals, ops, s, s + 365 * msPerDay, .monthly, some 100000⟩
      (by omega)]
    norm_num [GenArgs.forcedPoint, GenArgs.targetNetWorth,
      GenArgs.targetAssets, GenArgs.targetLiabilities, hL0, round_eq,
      HistoryPoint.mk.injEq]

theorem C5_monthly_year_scenario_witness :
    ((⟨100000, 0, 100000⟩ : CurrentTotals).totalLiabilities = 0) ∧
    ((generateRealisticHistory ⟨100000, 0, 100000⟩ zeroOps 0
        (0 + 365 * msPerDay) .monthly (some 100000)).length = 13 ∧
    (generateRealisticHistory ⟨100000, 0, 100000⟩ zeroOps 0
        (0 + 365 * msPerDay) .monthly (some 100000)).getLast? =
      some { date := 0 + 365 * msPerDay, netWorth := 100000,
             totalAssets := 100000, totalLiabilities := 0 }) :=
  ⟨rfl, C5_monthly_year_scenario ⟨100000, 0, 100000⟩ zeroOps 0 rfl⟩

/-- Closed evaluation of the index-0 iteration for the C5 scenario: starting
from zero liabilities, the monthly clamp immediately forces the stored
liabilities up to 15000. -/
theorem generateStep_eval_c5 :
    generateStep
        ⟨⟨100000, 0, 100000⟩, zeroOps, 1704067200000,
          1704067200000 + 365 * msPerDay, .monthly, some 100000⟩ 0 0 =
      ({ date := 1704067200000, netWorth := 100000, totalAssets := 100000,
         totalLiabilities := 15000 }, 15000) := by
  have hne : (((0 : ℕ) : ℤ)) ≠
      GenArgs.numPoints ⟨⟨100000, 0, 100000⟩, zeroOps, 1704067200000,
        1704067200000 + 365 * msPerDay, .monthly, some 100000⟩ := by decide
  have hseed : createSeededRandom 1704067200000 = ⟨20240101, none⟩ := by decide
  have hmon : jsGetMonth 1704067200000 = 0 := by decide
  have hdate : jsGetDate 1704067200000 = 1 := by decide
  have hl1 : lcgStep 20240101 = 1444551424 := by decide
  have hl2 : lcgStep 1444551424 = 2776912479 := by decide
  have hl3 : lcgStep 2776912479 = 1749023794 := by decide
  simp only [generateStep]
  rw [if_neg hne]
  norm_num [hseed, hmon, hdate, hl1, hl2, hl3,
    GenArgs.startingNetWorth, GenArgs.targetNetWorth, GenArgs.periodYears,
    GenArgs.volatilityPerInterval, GenArgs.totalDuration, intervalMsOf,
    msPerDay, zeroOps, SeededRandom.normal, SeededRandom.next,
    SeededRandom.range, totalGrowthRate, volatility, piF64,
    max_def, min_def, round_eq, Prod.ext_iff, HistoryPoint.mk.injEq]

/-- **C5** counterexample to the "liabilities held constant at 0" part: in
the very scenario of the claim (zero ambient liabilities, monthly, 365-day
span, target 100000), the first generated point already stores
`totalLiabilities = 15000 ≠ 0`. -/
theorem C5_counterexample :
    (generateRealisticHistory ⟨100000, 0, 100000⟩ zeroOps 1704067200000
        (1704067200000 + 365 * msPerDay) .monthly (some 100000)).get? 0 =
      some { date := 1704067200000, netWorth := 100000,
             totalAssets := 100000, totalLiabilities := 15000 } ∧
    (15000 : ℤ) ≠ 0 := by
  refine ⟨?_, by decide⟩
  exact (generateRealisticHistory_get0
      ⟨⟨100000, 0, 100000⟩, zeroOps, 1704067200000,
        1704067200000 + 365 * msPerDay, .monthly, some 100000⟩
      (by decide)).trans
    (congrArg some (congrArg Prod.fst generateStep_eval_c5))

/-! ## Aggregation lemmas -/

theorem totalsStep_eq (accounts : List Account) (t : ℚ × ℚ)
    (b : AccountBalance) :
    totalsStep accounts t b =
      (t.1 + assetContrib accounts b, t.2 + liabilityContrib accounts b) := by
  unfold totalsStep assetContrib liabilityContrib
  cases accounts.find? (fun a => a.id == b.accountId) with
  | none => simp
  | some a =>
    by_cases h1 : a.type ∈ assetTypeList <;>
      by_cases h2 : a.type ∈ liabilityTypeList <;>
        simp [h1, h2]

theorem totals_foldl_eq (accounts : List Account)
    (bs : List AccountBalance) :
    ∀ t : ℚ × ℚ, bs.foldl (totalsStep accounts) t =
      (t.1 + (bs.map (assetContrib accounts)).sum,
        t.2 + (bs.map (liabilityContrib accounts)).sum) := by
  induction bs with
  | nil => intro t; simp
  | cons b bs ih =>
    intro t
    rw [List.foldl_cons, totalsStep_eq, ih]
    simp only [List.map_cons, List.sum_cons, Prod.mk.injEq]
    constructor <;> ring

/-- `calculateCurrentTotals` in declarative form: it sums, over the current
balances, the contribution of each balance joined to its account. -/
theorem calculateCurrentTotals_eq_sums (accounts : List Account)
    (balances : List AccountBalance) :
    calculateCurrentTotals accounts balances =
      { totalAssets := ((balances.filter (fun b => b.isCurrent)).map
          (assetContrib accounts)).sum
        totalLiabilities := ((balances.filter (fun b => b.isCurrent)).map
          (liabilityContrib accounts)).sum
        currentNetWorth := ((balances.filter (fun b => b.isCurrent)).map
            (assetContrib accounts)).sum -
          ((balances.filter (fun b => b.isCurrent)).map
            (liabilityContrib accounts)).sum } := by
  simp only [calculateCurrentTotals, totals_foldl_eq]
  simp

/-- **C2** (amended).  In `calculateCurrentTotals`, each `isCurrent` balance
joined to its account is added to `totalAssets` iff the account type is one
of {depository, investment, manual_asset} and to `totalLiabilities` iff it
is credit or loan, with `netWorth = totalAssets - totalLiabilities`; wallet
(`solana_wallet`) accounts are counted in **neither** sum, contrary to the
claim's asset set.  On the two-account fixture (depository 5000, credit
1200) the result is (5000, 1200, 3800). -/
theorem C2_current_totals_rule :
    (∀ (accounts : List Account) (balances : List AccountBalance),
      calculateCurrentTotals accounts balances =
        { totalAssets := ((balances.filter (fun b => b.isCurrent)).map
            (assetContrib accounts)).sum
          totalLiabilities := ((balances.filter (fun b => b.isCurrent)).map
            (liabilityContrib accounts)).sum
          currentNetWorth := ((balances.filter (fun b => b.isCurrent)).map
              (assetContrib accounts)).sum -
            ((balances.filter (fun b => b.isCurrent)).map
              (liabilityContrib accounts)).sum }) ∧
    (∀ ty : AccountType, assetTypeList.contains ty = true ↔
      ty = .depository ∨ ty = .investment ∨ ty = .manual_asset) ∧
    (∀ ty : AccountType, liabilityTypeList.contains ty = true ↔
      ty = .credit ∨ ty = .loan) ∧
    calculateCurrentTotals [fixtureDepositoryAccount, fixtureCreditAccount]
        [fixtureDepositoryBalance, fixtureCreditBalance] =
      { totalAssets := 5000, totalLiabilities := 1200,
        currentNetWorth := 3800 } := by
  refine ⟨calculateCurrentTotals_eq_sums, ?_, ?_, ?_⟩
  · intro ty; cases ty <;> simp [assetTypeList]
  · intro ty; cases ty <;> simp [liabilityTypeList]
  · simp [calculateCurrentTotals, totalsStep, fixtureDepositoryAccount,
      fixtureCreditAccount, fixtureDepositoryBalance, fixtureCreditBalance,
      assetTypeList, liabilityTypeList, CurrentTotals.mk.injEq]
    norm_num

/-- **C2** counterexample to the claim as stated: the claim counts wallet
accounts among the asset types, but a wallet (`solana_wallet`) account with
a 100-unit current balance contributes to neither `totalAssets` nor
`totalLiabilities` — the totals are all zero, not 100. -/
theorem C2_counterexample :
    calculateCurrentTotals [walletAccount] [walletBalance] =
      { totalAssets := 0, totalLiabilities := 0, currentNetWorth := 0 } ∧
    (0 : ℚ) ≠ 100 := by
  constructor
  · simp [calculateCurrentTotals, totalsStep, walletAccount,
      walletBalance, assetTypeList, liabilityTypeList,
      CurrentTotals.mk.injEq]
  · norm_num

theorem find_id_of_nodup (accounts : List Account)
    (hnd : (accounts.map (fun a => a.id)).Nodup) (a : Account)
    (ha : a ∈ accounts) :
    accounts.find? (fun x => x.id == a.id) = some a := by
  induction accounts with
  | nil => cases ha
  | cons c rest ih =>
    rw [List.map_cons, List.nodup_cons] at hnd
    rcases List.mem_cons.mp ha with rfl | hmem
    · rw [List.find?_cons_of_pos _ (by simp)]
    · have hne : (c.id == a.id) = false := by
        have : a.id ∈ rest.map (fun a => a.id) :=
          List.mem_map.mpr ⟨a, hmem, rfl⟩
        have : c.id ≠ a.id := fun hEq => hnd.1 (hEq ▸ this)
        simpa using this
      rw [List.find?_cons_of_neg _ (by simp [hne])]
      exact ih hnd.2 hmem

theorem sum_filterMap_eq (accounts : List Account) (F : AccountBalance → ℚ)
    (G : Account → ℚ)
    (h1 : ∀ a ∈ accounts, ∀ b, a.currentBalance = some b → F b = G a)
    (h2 : ∀ a ∈ accounts, a.currentBalance = none → G a = 0) :
    ((accounts.filterMap (fun a => a.currentBalance)).map F).sum =
      (accounts.map G).sum := by
  induction accounts with
  | nil => rfl
  | cons a rest ih =>
    have ih' := ih (fun x hx => h1 x (List.mem_cons_of_mem a hx))
      (fun x hx => h2 x (List.mem_cons_of_mem a hx))
    cases hcb : a.currentBalance with
    | none =>
      rw [List.filterMap_cons_none hcb, List.map_cons, List.sum_cons, ih',
        h2 a (List.mem_cons_self a rest) hcb, zero_add]
    | some b =>
      rw [List.filterMap_cons_some hcb, List.map_cons, List.sum_cons,
        List.map_cons, List.sum_cons, ih',
        h1 a (List.mem_cons_self a rest) b hcb]

theorem sum_filter_eq_sum_ite (l : List Account) (p : Account → Bool)
    (f : Account → ℚ) :
    ((l.filter p).map f).sum =
      (l.map (fun a => if p a then f a else 0)).sum := by
  induction l with
  | nil => rfl
  | cons a t ih =>
    by_cases hp : p a
    · rw [List.filter_cons_of_pos hp]
      simp [hp, ih]
    · rw [List.filter_cons_of_neg hp]
      simp [hp, ih]

theorem sum_asset_categories (l : List Account) :
    ((l.filter (fun a => a.category == .cash)).map
        accountCurrentBalanceValue).sum +
      ((l.filter (fun a => a.category == .investment)).map
        accountCurrentBalanceValue).sum +
      ((l.filter (fun a => a.category == .property)).map
        accountCurrentBalanceValue).sum +
      ((l.filter (fun a => a.category == .vehicle)).map
        accountCurrentBalanceValue).sum +
      ((l.filter (fun a => a.category == .precious_metal)).map
        accountCurrentBalanceValue).sum +
      ((l.filter (fun a => a.category == .digital_asset)).map
        accountCurrentBalanceValue).sum +
      ((l.filter (fun a => a.category == .other)).map
        accountCurrentBalanceValue).sum =
      (l.map accountCurrentBalanceValue).sum := by
  induction l with
  | nil => simp
  | cons a t ih =>
    cases hcat : a.category <;>
      simp only [List.filter_cons, hcat, List.map_cons, List.sum_cons] <;>
      simp <;> linarith [ih]

theorem assetBreakdown_total_eq (accounts : List Account) :
    (calculateAssetBreakdown accounts).total =
      (accounts.map directAssetContrib).sum := by
  simp only [calculateAssetBreakdown, AssetBreakdown.total, sumBalances]
  rw [sum_asset_categories, sum_filter_eq_sum_ite]
  rfl

theorem sum_liability_buckets (l : List Account)
    (h : ∀ a ∈ l, liabilityBreakdownTypeList.contains a.type = true) :
    ((l.filter (fun a => a.type == .credit)).map
        accountCurrentBalanceValue).sum +
      ((l.filter (fun a => a.type == .loan && a.subtype == "mortgage")).map
        accountCurrentBalanceValue).sum +
      ((l.filter (fun a => a.type == .loan && a.subtype != "mortgage")).map
        accountCurrentBalanceValue).sum +
      ((l.filter (fun a => a.type == .manual_liability)).map
        accountCurrentBalanceValue).sum =
      (l.map accountCurrentBalanceValue).sum := by
  induction l with
  | nil => simp
  | cons a t ih =>
    have ha := h a (List.mem_cons_self a t)
    have ih' := ih (fun x hx => h x (List.mem_cons_of_mem a hx))
    cases htype : a.type with
    | depository =>
      rw [htype] at ha
      simp [liabilityBreakdownTypeList] at ha
    | investment =>
      rw [htype] at ha
      simp [liabilityBreakdownTypeList] at ha
    | manual_asset =>
      rw [htype] at ha
      simp [liabilityBreakdownTypeList] at ha
    | solana_wallet =>
      rw [htype] at ha
      simp [liabilityBreakdownTypeList] at ha
    | credit =>
      simp only [List.filter_cons, htype, List.map_cons, List.sum_cons]
      simp
      linarith [ih']
    | manual_liability =>
      simp only [List.filter_cons, htype, List.map_cons, List.sum_cons]
      simp
      linarith [ih']
    | loan =>
      by_cases hsub : a.subtype = "mortgage"
      · simp only [List.filter_cons, htype, List.map_cons, List.sum_cons]
        simp [hsub]
        linarith [ih']
      · simp only [List.filter_cons, htype, List.map_cons, List.sum_cons]
        simp [hsub]
        linarith [ih']

theorem liabilityBreakdown_total_eq (accounts : List Account) :
    (calculateLiabilityBreakdown accounts).total =
      (accounts.map (fun a =>
        if liabilityBreakdownTypeList.contains a.type then
          accountCurrentBalanceValue a
        else 0)).sum := by
  simp only [calculateLiabilityBreakdown, LiabilityBreakdown.total,
    sumBalances]
  rw [sum_liability_buckets _ (fun a ha => (List.mem_filter.mp ha).2),
    sum_filter_eq_sum_ite]

theorem currentTotals_of_consistent (accounts : List Account)
    (balances : List AccountBalance)
    (hc : ConsistentFixture accounts balances) :
    (calculateCurrentTotals accounts balances).totalAssets =
      (accounts.map directAssetContrib).sum ∧
    (calculateCurrentTotals accounts balances).totalLiabilities =
      (accounts.map directLiabilityContrib).sum := by
  obtain ⟨hfil, hlink, hnd⟩ := hc
  have hlink' : ∀ a ∈ accounts, ∀ b, a.currentBalance = some b →
      b.accountId = a.id := by
    intro a ha b hb
    have hba := List.all_eq_true.mp hlink a ha
    unfold balanceLinked at hba
    rw [hb] at hba
    simpa using hba
  have hfind : ∀ a ∈ accounts, ∀ b, a.currentBalance = some b →
      accounts.find? (fun x => x.id == b.accountId) = some a := by
    intro a ha b hb
    rw [hlink' a ha b hb]
    exact find_id_of_nodup accounts hnd a ha
  have hA : ((balances.filter (fun b => b.isCurrent)).map
      (assetContrib accounts)).sum = (accounts.map directAssetContrib).sum := by
    rw [hfil]
    apply sum_filterMap_eq
    · intro a ha b hb
      unfold assetContrib directAssetContrib
      rw [hfind a ha b hb]
      by_cases hty : a.type ∈ assetTypeList <;>
        simp [hty, accountCurrentBalanceValue, hb]
    · intro a ha hnone
      unfold directAssetContrib accountCurrentBalanceValue
      rw [hnone]
      simp
  have hL : ((balances.filter (fun b => b.isCurrent)).map
      (liabilityContrib accounts)).sum =
      (accounts.map directLiabilityContrib).sum := by
    rw [hfil]
    apply sum_filterMap_eq
    · intro a ha b hb
      unfold liabilityContrib directLiabilityContrib
      rw [hfind a ha b hb]
      by_cases hty1 : a.type ∈ assetTypeList <;>
        by_cases hty2 : a.type ∈ liabilityTypeList <;>
          simp [hty1, hty2, accountCurrentBalanceValue, hb]
    · intro a ha hnone
      unfold directLiabilityContrib accountCurrentBalanceValue
      rw [hnone]
      simp
  rw [calculateCurrentTotals_eq_sums]
  exact ⟨hA, hL⟩

/-- **C7** (amended).  When the balance list is exactly the accounts'
embedded current balances (as the source fixtures are) and no account has
type `manual_liability`, the sum of the asset category breakdown equals
`totalAssets` exactly (not merely within an epsilon), and the sum of the
liability breakdown equals `totalLiabilities` exactly.  Without those side
conditions the claim fails — see the counterexample. -/
theorem C7_breakdown_consistency (accounts : List Account)
    (balances : List AccountBalance)
    (hc : ConsistentFixture accounts balances)
    (hml : accounts.all (fun a => a.type != .manual_liability) = true) :
    (calculateAssetBreakdown accounts).total =
      (calculateCurrentTotals accounts balances).totalAssets ∧
    (calculateLiabilityBreakdown accounts).total =
      (calculateCurrentTotals accounts balances).totalLiabilities := by
  have h := currentTotals_of_consistent accounts balances hc
  constructor
  · rw [assetBreakdown_total_eq, h.1]
  · rw [liabilityBreakdown_total_eq, h.2]
    refine congrArg List.sum (List.map_congr_left ?_)
    intro a ha
    have hmla := List.all_eq_true.mp hml a ha
    unfold directLiabilityContrib
    cases hty : a.type <;>
      simp_all [liabilityBreakdownTypeList, assetTypeList, liabilityTypeList]

theorem C7_breakdown_consistency_witness :
    ConsistentFixture mockAccounts mockAccountBalances ∧
    (mockAccounts.all (fun a => a.type != .manual_liability) = true) ∧
    ((calculateAssetBreakdown mockAccounts).total =
        (calculateCurrentTotals mockAccounts
          mockAccountBalances).totalAssets ∧
      (calculateLiabilityBreakdown mockAccounts).total =
        (calculateCurrentTotals mockAccounts
          mockAccountBalances).totalLiabilities) :=
  ⟨by decide, by decide,
    C7_breakdown_consistency mockAccounts mockAccountBalances (by decide)
      (by decide)⟩

/-- **C7** counterexample to the claim as stated ("for any set of Account
and Balance records ... within an epsilon of less than 1 unit").  (1) An
account whose embedded current balance has no counterpart in the balance
list: breakdown sums 5000, totals compute 0 — off by 5000.  (2) On a fully
consistent single-account set of type `manual_liability`, the liability
breakdown sums 500 but `totalLiabilities` is 0 — off by 500. -/
theorem C7_counterexample :
    (calculateAssetBreakdown [fixtureDepositoryAccount]).total = 5000 ∧
    (calculateCurrentTotals [fixtureDepositoryAccount] []).totalAssets = 0 ∧
    ¬((5000 : ℚ) - 0 < 1) ∧
    (calculateLiabilityBreakdown [manualLiabilityAccount]).total = 500 ∧
    ConsistentFixture [manualLiabilityAccount] [manualLiabilityBalance] ∧
    (calculateCurrentTotals [manualLiabilityAccount]
      [manualLiabilityBalance]).totalLiabilities = 0 ∧
    ¬((500 : ℚ) - 0 < 1) := by
  refine ⟨?_, ?_, by norm_num, ?_, by decide, ?_, by norm_num⟩
  · simp [calculateAssetBreakdown, AssetBreakdown.total, sumBalances,
      fixtureDepositoryAccount, fixtureDepositoryBalance, assetTypeList,
      accountCurrentBalanceValue]
  · simp [calculateCurrentTotals, CurrentTotals.mk.injEq]
  · simp [calculateLiabilityBreakdown, LiabilityBreakdown.total,
      sumBalances, manualLiabilityAccount, manualLiabilityBalance,
      liabilityBreakdownTypeList, accountCurrentBalanceValue]
  · simp [calculateCurrentTotals, totalsStep, manualLiabilityAccount,
      manualLiabilityBalance, assetTypeList, liabilityTypeList]

theorem C2_current_totals_rule_witness :
    calculateCurrentTotals [fixtureDepositoryAccount, fixtureCreditAccount]
        [fixtureDepositoryBalance, fixtureCreditBalance] =
      { totalAssets := 5000, totalLiabilities := 1200,
        currentNetWorth := 3800 } :=
  C2_current_totals_rule.2.2.2
